import Mathlib

set_option maxRecDepth 20000

namespace WorkerdManager

/-! Shallow embedding of the worker process lifecycle manager of
`crates/api/src/workerd.rs` (together with the error enum of
`crates/api/src/errors.rs` and the state of `crates/api/src/config.rs`).
Rust `HashMap<String, V>` values are modelled as association lists,
`tokio::sync::oneshot` senders as natural-number signal identifiers drawn
from a fresh-name counter, and the filesystem as an association list from
paths (lists of components) to file contents. -/

/-- Lookup in the association-list model of `HashMap::get`. -/
def mapLookup {κ α : Type} [DecidableEq κ] (k : κ) : List (κ × α) → Option α
  | [] => none
  | (k', v) :: rest => if k' = k then some v else mapLookup k rest

/-- Model of `HashMap::contains_key`. -/
def mapContains {κ α : Type} [DecidableEq κ] (k : κ) (m : List (κ × α)) : Bool :=
  (mapLookup k m).isSome

/-- Model of `HashMap::insert`: replaces the binding of `k` when present,
otherwise appends it. -/
def mapInsert {κ α : Type} [DecidableEq κ] (k : κ) (v : α) : List (κ × α) → List (κ × α)
  | [] => [(k, v)]
  | (k', v') :: rest => if k' = k then (k, v) :: rest else (k', v') :: mapInsert k v rest

/-- Model of `HashMap::remove` (drops the first binding of `k`; under the
no-duplicate-keys invariant this is the only one). -/
def mapRemove {κ α : Type} [DecidableEq κ] (k : κ) : List (κ × α) → List (κ × α)
  | [] => []
  | (k', v') :: rest => if k' = k then rest else (k', v') :: mapRemove k rest

/-- Keys of an association list. -/
def mapKeys {κ α : Type} (m : List (κ × α)) : List κ := m.map Prod.fst

/-- The `ServerError` enum of `crates/api/src/errors.rs`, constructor for
constructor. -/
inductive ServerError
  | WrongCredentials
  | MissingCredentials
  | TokenCreation
  | InvalidToken
  | InternalServerError
  | FailedToEncodeAccessToken
  | FailedToDecodeAccessToken
  | FailedToEncodeRefreshToken
  | FailedToDecodeRefreshToken
  | FailedToGenerateTokenPair
  | NotFound
  | Unauthorized
  | MissingAuthorizationHeader
  | InvalidAuthorizationHeader
  | WorkerStillRunning
  | WorkerNotRunning
  | WorkerNotFound
  | FailedStartWorker
  deriving DecidableEq, Repr

/-- Outcome of running a piece of Rust code that may return normally,
return an error to its caller, or abort via a panicking `unwrap()`. -/
inductive Outcome (α : Type)
  | ok (a : α)
  | err (e : ServerError)
  | panicked
  deriving DecidableEq, Repr

/-- The `Worker` struct of `workerd.rs` (serde-serializable render data). -/
structure Worker where
  id : String
  host_name : String
  port : String
  entry : String
  code : String
  template : Option String
  deriving DecidableEq, Repr

/-- Model of `worker.id.replace("-", "")`: dropping every hyphen. -/
def stripHyphens (s : String) : String :=
  String.mk (s.data.filter (fun c => c ≠ '-'))

/-! SHA-256, modelling the `sha2::Sha256` digest used by
`get_template_hash`, following FIPS 180-4 over bytes represented as `Nat`
(reduced mod 2^32 / 2^8 explicitly). The round constants are computed, as
in the standard, from the fractional parts of the cube/square roots of the
first primes. -/

/-- Truncation to a 32-bit word. -/
def w32 (n : Nat) : Nat := n % 4294967296

/-- Right rotation of a 32-bit word. -/
def rotr32 (x n : Nat) : Nat := w32 (x / 2 ^ n + x % 2 ^ n * 2 ^ (32 - n))

def ssig0 (x : Nat) : Nat := (rotr32 x 7) ^^^ (rotr32 x 18) ^^^ (x >>> 3)

def ssig1 (x : Nat) : Nat := (rotr32 x 17) ^^^ (rotr32 x 19) ^^^ (x >>> 10)

def bsig0 (x : Nat) : Nat := (rotr32 x 2) ^^^ (rotr32 x 13) ^^^ (rotr32 x 22)

def bsig1 (x : Nat) : Nat := (rotr32 x 6) ^^^ (rotr32 x 11) ^^^ (rotr32 x 25)

def chf (x y z : Nat) : Nat := (x &&& y) ^^^ ((x ^^^ 4294967295) &&& z)

def majf (x y z : Nat) : Nat := (x &&& y) ^^^ (x &&& z) ^^^ (y &&& z)

/-- Trial-division primality test, used only to generate the SHA-256
constants. -/
def isPrimeNat (n : Nat) : Bool :=
  2 ≤ n && (((List.range (n - 2)).map (· + 2)).all (fun d => d * d > n || n % d ≠ 0))

/-- The first 64 primes (2, 3, 5, ...). -/
def sha256Primes : List Nat := ((List.range 400).filter (fun n => isPrimeNat n)).take 64

/-- Integer cube root by descending binary search on `i` bits. -/
def cbrtLoop : Nat → Nat → Nat → Nat
  | 0, _, r => r
  | i + 1, n, r => if (r + 2 ^ i) ^ 3 ≤ n then cbrtLoop i n (r + 2 ^ i) else cbrtLoop i n r

def cbrt (n : Nat) : Nat := cbrtLoop 44 n 0

/-- SHA-256 round constants: first 32 bits of the fractional parts of the
cube roots of the first 64 primes. -/
def sha256K : List Nat := sha256Primes.map (fun p => cbrt (p * 2 ^ 96) % 4294967296)

/-- SHA-256 initial hash value: first 32 bits of the fractional parts of
the square roots of the first 8 primes. -/
def sha256H0 : List Nat := (sha256Primes.take 8).map (fun p => Nat.sqrt (p * 2 ^ 64) % 4294967296)

/-- Big-endian byte decomposition of `n` into `numBytes` bytes. -/
def bytesBE (numBytes n : Nat) : List Nat :=
  (List.range numBytes).map (fun i => n / 2 ^ (8 * (numBytes - 1 - i)) % 256)

/-- SHA-256 message padding: a `0x80` byte, zeros to 56 mod 64, then the
bit length as a 64-bit big-endian integer. -/
def sha256Pad (ms : List Nat) : List Nat :=
  ms ++ [128] ++ List.replicate ((56 + 64 - (ms.length + 1) % 64) % 64) 0
    ++ bytesBE 8 (8 * ms.length)

/-- Splits a byte list into 64-byte chunks (fuel-driven for structural
recursion; the fuel is always sufficient at the call site). -/
def chunksF : Nat → List Nat → List (List Nat)
  | 0, _ => []
  | _ + 1, [] => []
  | fuel + 1, b :: rest => (b :: rest).take 64 :: chunksF fuel ((b :: rest).drop 64)

/-- The `i`-th big-endian 32-bit word of a byte chunk. -/
def wordAt (bs : List Nat) (i : Nat) : Nat :=
  bs.getD (4 * i) 0 * 16777216 + bs.getD (4 * i + 1) 0 * 65536 +
    bs.getD (4 * i + 2) 0 * 256 + bs.getD (4 * i + 3) 0

/-- Message-schedule extension: appends `n` further words. -/
def extendW : Nat → List Nat → List Nat
  | 0, ws => ws
  | n + 1, ws =>
    let l := ws.length
    extendW n (ws ++ [w32 (ssig1 (ws.getD (l - 2) 0) + ws.getD (l - 7) 0 +
      ssig0 (ws.getD (l - 15) 0) + ws.getD (l - 16) 0)])

/-- One SHA-256 round on the eight-word working state. -/
def sha256Round (st : List Nat) (kw : Nat × Nat) : List Nat :=
  let a := st.getD 0 0
  let b := st.getD 1 0
  let c := st.getD 2 0
  let d := st.getD 3 0
  let e := st.getD 4 0
  let f := st.getD 5 0
  let g := st.getD 6 0
  let h := st.getD 7 0
  let t1 := w32 (h + bsig1 e + chf e f g + kw.1 + kw.2)
  let t2 := w32 (bsig0 a + majf a b c)
  [w32 (t1 + t2), a, b, c, w32 (d + t1), e, f, g]

/-- Compression of one 64-byte chunk into the running hash. -/
def sha256Compress (h : List Nat) (chunk : List Nat) : List Nat :=
  let ws := extendW 48 ((List.range 16).map (wordAt chunk))
  let fin := (sha256K.zip ws).foldl sha256Round h
  List.zipWith (fun x y => w32 (x + y)) h fin

/-- SHA-256 of a byte list, as eight 32-bit words. -/
def sha256Words (ms : List Nat) : List Nat :=
  (chunksF (ms.length + 72) (sha256Pad ms)).foldl sha256Compress sha256H0

/-- Lowercase hexadecimal digit. -/
def hexChar (n : Nat) : Char :=
  if n < 10 then Char.ofNat (48 + n) else Char.ofNat (87 + n)

/-- Big-endian fixed-width lowercase hex rendering. -/
def toHexF : Nat → Nat → List Char
  | 0, _ => []
  | d + 1, n => toHexF d (n / 16) ++ [hexChar (n % 16)]

/-- UTF-8 encoding of one character as bytes. -/
def utf8Bytes (c : Char) : List Nat :=
  let n := c.toNat
  if n < 128 then [n]
  else if n < 2048 then [192 + n / 64, 128 + n % 64]
  else if n < 65536 then [224 + n / 4096, 128 + n / 64 % 64, 128 + n % 64]
  else [240 + n / 262144, 128 + n / 4096 % 64, 128 + n / 64 % 64, 128 + n % 64]

/-- UTF-8 bytes of a string (the `as_bytes` view hashed by `sha2`). -/
def strBytes (s : String) : List Nat := (s.data.map utf8Bytes).flatten

/-- Model of `get_template_hash` in `workerd.rs`: the lowercase-hex
SHA-256 digest (`format!("{:x}", hasher.finalize())`) of the template
text. -/
def get_template_hash (template : String) : String :=
  String.mk ((sha256Words (strBytes template)).map (toHexF 8)).flatten

/-! Model of the `handlebars` engine, which lives outside this repository.
Modelled from the spec: the spec treats the render engine as a black-box
`render(template, data) -> text` whose failure modes are "malformed
template syntax (fails at compile/registration)" and "missing required
substitution field (fails at render)". The model below compiles a
template into literal characters and `\x7b\x7bname\x7d\x7d` variable
segments; compilation fails on an unterminated variable opener, and
rendering fails when a referenced name is not a field of the serialized
`Worker` struct. -/

/-- A compiled template segment: a literal character or a variable
reference. -/
inductive Segment
  | lit (c : Char)
  | var (name : List Char)
  deriving DecidableEq, Repr

/-- Reads a variable name up to the closing double brace; `none` when the
closer is missing (malformed template). -/
def readVar : List Char → Option (List Char × List Char)
  | [] => none
  | '}' :: '}' :: rest => some ([], rest)
  | c :: rest =>
    match readVar rest with
    | none => none
    | some (v, r) => some (c :: v, r)

/-- Fuel-driven template parser body (each step consumes at least one
character, so fuel equal to the input length suffices). -/
def parseSegsF : Nat → List Char → Option (List Segment)
  | _, [] => some []
  | 0, _ :: _ => none
  | fuel + 1, '{' :: '{' :: rest =>
    match readVar rest with
    | none => none
    | some (v, r) => (parseSegsF fuel r).map (Segment.var v :: ·)
  | fuel + 1, c :: rest => (parseSegsF fuel rest).map (Segment.lit c :: ·)

/-- Template compilation, the model of
`handlebars.register_template_string`: `none` means the registration
fails (malformed syntax). -/
def parseSegs (l : List Char) : Option (List Segment) := parseSegsF l.length l

/-- Field lookup on the serde-serialized `Worker`, the substitution data
of `compiled_template.render(&template_hash, &worker)`. A name that is
not a field is a missing substitution field. -/
def fieldValue (w : Worker) (name : List Char) : Option (List Char) :=
  if name = "id".data then some w.id.data
  else if name = "host_name".data then some w.host_name.data
  else if name = "port".data then some w.port.data
  else if name = "entry".data then some w.entry.data
  else if name = "code".data then some w.code.data
  else none

/-- Rendering of a compiled template against a worker, the model of
`Handlebars::render`: `none` means the render fails (missing field). -/
def renderSegs (w : Worker) : List Segment → Option (List Char)
  | [] => some []
  | Segment.lit c :: rest => (renderSegs w rest).map (c :: ·)
  | Segment.var n :: rest =>
    match fieldValue w n, renderSegs w rest with
    | some v, some s => some (v ++ s)
    | _, _ => none

/-- The `DEFAULT_TEMPLATE` constant of `workerd.rs`, byte for byte. -/
def DEFAULT_TEMPLATE : String :=
  "using Workerd = import \"/workerd/workerd.capnp\";\n\nconst config :Workerd.Config = (\n  services = [\n    (name = \"\x7b\x7bid\x7d\x7d\", worker = .worker\x7b\x7bid\x7d\x7d),\n  ],\n\n  sockets = [\n    (\n      name = \"\x7b\x7bid\x7d\x7d\",\n      address = \"\x7b\x7bhost_name\x7d\x7d:\x7b\x7bport\x7d\x7d\",\n      http = (),\n      service = \"\x7b\x7bid\x7d\x7d\"\n    ),\n  ]\n);\n\nconst worker\x7b\x7bid\x7d\x7d :Workerd.Worker = (\n  serviceWorkerScript = embed \"src/\x7b\x7bentry\x7d\x7d\",\n  compatibilityDate = \"2024-06-03\",\n);\n"

/-- The environment fields of `EnvironmentVariables` (`config.rs`) that
the lifecycle manager reads. -/
structure EnvironmentVariables where
  workerd_dir : String
  worker_info_dir : String
  workerd_bin_path : String
  deriving DecidableEq, Repr

/-- The shared mutable state of `AppState` (`config.rs`) used by
`workerd.rs`, with ghost fields recording observable events: `compiles`
counts completed `register_template_string` calls, `next_signal` is the
fresh-name source for `oneshot::channel`, `fired` lists signals that have
been sent, and `killed` lists child handles that received `kill()`. -/
structure AppState where
  env : EnvironmentVariables
  template_cache : List (String × List Segment)
  chan_map : List (String × Nat)
  child_map : List (String × Nat)
  next_signal : Nat
  compiles : Nat
  fired : List Nat
  killed : List Nat
  deriving DecidableEq, Repr

/-- The worker's chosen template:
`worker.template.unwrap_or_else(|| DEFAULT_TEMPLATE.to_string())`. -/
def chosenTemplate (w : Worker) : String := w.template.getD DEFAULT_TEMPLATE

/-- Model of `generate_worker_config` in `workerd.rs`: strips hyphens
from the worker id, selects the template, hashes it, compiles it into the
cache on a miss (`entry(..).or_insert_with(..)`, where the
`register_template_string(..).unwrap()` panics on malformed syntax before
anything is inserted), and renders it (`render(..).unwrap()`, which
panics on a render failure after the cache insertion). -/
def generate_worker_config (s : AppState) (w : Worker) : Outcome String × AppState :=
  let wSan := { w with id := stripHyphens w.id }
  let template := chosenTemplate w
  let template_hash := get_template_hash template
  match mapLookup template_hash s.template_cache with
  | some segs =>
    match renderSegs wSan segs with
    | some out => (Outcome.ok (String.mk out), s)
    | none => (Outcome.panicked, s)
  | none =>
    match parseSegs template.data with
    | none => (Outcome.panicked, s)
    | some segs =>
      let s' := { s with
        template_cache := mapInsert template_hash segs s.template_cache,
        compiles := s.compiles + 1 }
      match renderSegs wSan segs with
      | some out => (Outcome.ok (String.mk out), s')
      | none => (Outcome.panicked, s')

/-! Filesystem paths, modelled as lists of components (each `join` in the
source contributes one component). -/

/-- The Capfile path built by `write_worker_config_capfile` and by the
launch task inside `run_cmd`: `workerd_dir` joined with the literal
`"worker-info"`, the worker id, and `"Capfile"`. -/
def capfile_path (env : EnvironmentVariables) (wid : String) : List String :=
  [env.workerd_dir, "worker-info", wid, "Capfile"]

/-- The source path built by `write_worker_code`: `workerd_dir` joined
with the `worker_info_dir` environment value, the worker id, `"src"`, and
the entry file name. -/
def worker_code_path (env : EnvironmentVariables) (wid entry : String) : List String :=
  [env.workerd_dir, env.worker_info_dir, wid, "src", entry]

/-- The directory removed by `delete_file`: `workerd_dir` joined with the
`worker_info_dir` environment value and the worker id. -/
def delete_path (env : EnvironmentVariables) (wid : String) : List String :=
  [env.workerd_dir, env.worker_info_dir, wid]

/-- Does directory `d` lead path `p`, i.e. is `d` an initial run of `p`'s
components? Used to delimit the subtree removed by `remove_dir_all`. -/
def dirLeads : List String → List String → Bool
  | [], _ => true
  | _ :: _, [] => false
  | a :: as, b :: bs => a == b && dirLeads as bs

/-- The filesystem: an association list from paths to file contents. -/
abbrev Fs : Type := List (List String × String)

/-- Error classes of a failed filesystem removal. -/
inductive IoError
  | notFound
  | permissionDenied
  deriving DecidableEq, Repr

/-- Model of `tokio::fs::remove_dir_all`: with `denied` a
permission/device failure is reported; otherwise the call removes every
file under the directory and reports `notFound` when nothing is there. -/
def remove_dir_all (p : List String) (denied : Bool) (fs : Fs) : Except IoError Fs :=
  if denied then Except.error IoError.permissionDenied
  else if fs.any (fun e => dirLeads p e.1) then
    Except.ok (fs.filter (fun e => !dirLeads p e.1))
  else Except.error IoError.notFound

/-- Model of the `delete_file` handler body after the access gate: a
`remove_dir_all` of `delete_path`, with every failure mapped to
`InternalServerError` by the single `map_err`. -/
def delete_file (s : AppState) (w : Worker) (denied : Bool) (fs : Fs) : Outcome Unit × Fs :=
  match remove_dir_all (delete_path s.env w.id) denied fs with
  | Except.error _ => (Outcome.err ServerError.InternalServerError, fs)
  | Except.ok fs' => (Outcome.ok (), fs')

/-- Model of the `write_worker_config_capfile` handler body after the
access gate: `generate_worker_configs` over the singleton vector keyed by
`worker.id` followed by `file_map.get(&worker.id).unwrap()` reduces to
one `generate_worker_config` call; the rendered text is then written
(after `create_dir_all`) to `capfile_path`. -/
def write_worker_config_capfile (s : AppState) (w : Worker) (fs : Fs) :
    Outcome Unit × AppState × Fs :=
  match generate_worker_config s w with
  | (Outcome.ok text, s') => (Outcome.ok (), s', mapInsert (capfile_path s.env w.id) text fs)
  | (_, s') => (Outcome.panicked, s', fs)

/-- Model of the `write_worker_code` handler body after the access gate:
writes the worker's code (after `create_dir_all`) to
`worker_code_path`. -/
def write_worker_code (s : AppState) (w : Worker) (fs : Fs) : Outcome Unit × Fs :=
  (Outcome.ok (), mapInsert (worker_code_path s.env w.id w.entry) w.code fs)

/-! The process supervisor: `run_cmd`, the spawned launch task,
`exit_cmd` and `exit_all_cmd`. -/

/-- The detached task spawned by `run_cmd`, as data: which worker it
serves, the configuration path passed to the runtime binary
(`<bin> serve <path> --watch --verbose`), and the reserved one-shot
signal it waits on. -/
structure LaunchTask where
  worker_id : String
  capfile_arg : List String
  signal : Nat
  deriving DecidableEq, Repr

/-- Model of the `run_cmd` handler body after the access gate. The
`chan_map` lock is held from the `contains_key` check through the
insertion, so the check-and-insert is one atomic step of this function:
when the id is present the call fails with `WorkerStillRunning` leaving
the state untouched, otherwise a fresh one-shot sender is registered and
the launch task is returned still unexecuted (no spawn has been attempted
yet) together with the `Ok` acknowledgment. -/
def runCmd (s : AppState) (w : Worker) : Outcome Unit × AppState × Option LaunchTask :=
  if mapContains w.id s.chan_map then
    (Outcome.err ServerError.WorkerStillRunning, s, none)
  else
    let tx := s.next_signal
    let s' := { s with chan_map := mapInsert w.id tx s.chan_map,
                       next_signal := s.next_signal + 1 }
    (Outcome.ok (), s',
      some { worker_id := w.id, capfile_arg := capfile_path s.env w.id, signal := tx })

/-- Result of the externally decided `Command::spawn` attempt inside the
launch task. -/
inductive SpawnOutcome
  | ok (child : Nat)
  | err
  deriving DecidableEq, Repr

/-- State of the launch task at its `rx.await` suspension point. -/
inductive SpawnPhase
  | panickedSpawn (e : ServerError)
  | waiting (child : Nat)
  deriving DecidableEq, Repr

/-- First phase of the launch task, up to `rx.await`: on spawn failure
the `map_err(.. FailedStartWorker).unwrap()` panics the task (nothing is
removed from `chan_map` and nothing reaches the caller, who has already
been answered); on success the child handle is registered in
`child_map`. -/
def launch_task_spawn (t : LaunchTask) (spawn : SpawnOutcome) (s : AppState) :
    SpawnPhase × AppState :=
  match spawn with
  | SpawnOutcome.err => (SpawnPhase.panickedSpawn ServerError.FailedStartWorker, s)
  | SpawnOutcome.ok child =>
    (SpawnPhase.waiting child,
      { s with child_map := mapInsert t.worker_id child s.child_map })

/-- Result of the launch task after its signal fires. -/
inductive TeardownResult
  | panickedRemove
  | killedChild (c : Nat)
  deriving DecidableEq, Repr

/-- Second phase of the launch task, after `rx.await` returns:
`child_map.remove(&worker.id).unwrap()` (panicking when the handle is
absent) followed by `child.kill()`. -/
def launch_task_teardown (t : LaunchTask) (s : AppState) : TeardownResult × AppState :=
  match mapLookup t.worker_id s.child_map with
  | none => (TeardownResult.panickedRemove, s)
  | some c =>
    (TeardownResult.killedChild c,
      { s with child_map := mapRemove t.worker_id s.child_map, killed := c :: s.killed })

/-- Model of the `exit_cmd` handler body after the access gate: under the
`chan_map` lock, `remove` and take the one-shot sender; when none is
registered fail with `WorkerNotRunning`; otherwise `send` on it and
return success immediately, without touching `child_map` and without
waiting for the subprocess. -/
def exit_cmd (s : AppState) (w : Worker) : Outcome Unit × AppState :=
  match mapLookup w.id s.chan_map with
  | some tx =>
    (Outcome.ok (), { s with chan_map := mapRemove w.id s.chan_map, fired := tx :: s.fired })
  | none => (Outcome.err ServerError.WorkerNotRunning, s)

/-- Model of the `exit_all_cmd` handler body: drains `chan_map`, sending
on every sender. -/
def exit_all_cmd (s : AppState) : Outcome Unit × AppState :=
  (Outcome.ok (), { s with chan_map := [], fired := s.chan_map.map Prod.snd ++ s.fired })

/-! The access gate `get_worker_with_id` and its database collaborator. -/

/-- The columns of the stored worker row that `get_worker_with_id`
reads. -/
structure DbWorker where
  host_name : String
  port : String
  entry : String
  code : String
  template : Option String
  user_id : String
  deriving DecidableEq, Repr

/-- The claims supplied by the authentication layer: the caller's subject
and whether `claims.roles.contains(&RoleEnum::Admin)`. -/
structure AccessTokenClaims where
  sub : String
  isAdmin : Bool
  deriving DecidableEq, Repr

/-- Model of `get_worker_with_id`: looks the requested id up in the store
(`Query::find_worker_by_id(&state.db, id.clone())` receives the original
id string), authorizes the caller, builds the `Worker` from the row with
the requested id, and finally strips the hyphens from that id
(`worker.id = worker.id.replace("-", "")`). -/
def get_worker_with_id (db : List (String × DbWorker)) (claims : AccessTokenClaims)
    (id : String) : Except ServerError Worker :=
  match mapLookup id db with
  | none => Except.error ServerError.NotFound
  | some row =>
    if claims.sub ≠ row.user_id ∧ claims.isAdmin = false then
      Except.error ServerError.Unauthorized
    else
      Except.ok { id := stripHyphens id, host_name := row.host_name, port := row.port,
                  entry := row.entry, code := row.code, template := row.template }

/-- No-duplicate-keys invariant of the association-list maps. -/
def nodupKeys {κ α : Type} (m : List (κ × α)) : Prop := (mapKeys m).Nodup

/-- Occurrence of a needle at the head of a character list. -/
def leadMatch : List Char → List Char → Bool
  | [], _ => true
  | _ :: _, [] => false
  | a :: as, b :: bs => a == b && leadMatch as bs

/-- Occurrence of a needle anywhere in a character list. -/
def containsSeq (needle : List Char) : List Char → Bool
  | [] => needle.isEmpty
  | c :: rest => leadMatch needle (c :: rest) || containsSeq needle rest

/-- Substring check on the `ok` payload of a render outcome. -/
def outcomeContains (o : Outcome String) (needle : String) : Bool :=
  match o with
  | Outcome.ok t => containsSeq needle.data t.data
  | _ => false

/-! Basic facts about the association-list map model. -/

theorem mapLookup_insert_self {κ α : Type} [DecidableEq κ] (k : κ) (v : α)
    (m : List (κ × α)) : mapLookup k (mapInsert k v m) = some v := by
  induction m with
  | nil => simp [mapInsert, mapLookup]
  | cons p rest ih =>
    obtain ⟨k', v'⟩ := p
    by_cases h : k' = k
    · simp [mapInsert, h, mapLookup]
    · simp [mapInsert, h, mapLookup, ih]

theorem mapLookup_insert_ne {κ α : Type} [DecidableEq κ] {k k' : κ} (v : α)
    (m : List (κ × α)) (h : k' ≠ k) :
    mapLookup k' (mapInsert k v m) = mapLookup k' m := by
  have hne : ¬ k = k' := fun hh => h hh.symm
  induction m with
  | nil => simp [mapInsert, mapLookup, hne]
  | cons p rest ih =>
    obtain ⟨k'', v''⟩ := p
    by_cases hk : k'' = k
    · subst hk
      simp [mapInsert, mapLookup, hne]
    · simp [mapInsert, hk, mapLookup, ih]

theorem mapKeys_insert {κ α : Type} [DecidableEq κ] (k : κ) (v : α)
    (m : List (κ × α)) :
    mapKeys (mapInsert k v m) =
      if k ∈ mapKeys m then mapKeys m else mapKeys m ++ [k] := by
  induction m with
  | nil => simp [mapInsert, mapKeys]
  | cons p rest ih =>
    obtain ⟨k', v'⟩ := p
    by_cases hk : k' = k
    · subst hk
      simp [mapInsert, mapKeys]
    · have hne : ¬ k = k' := fun hh => hk hh.symm
      simp only [mapInsert, if_neg hk, mapKeys, List.map_cons] at ih ⊢
      rw [ih]
      by_cases hmem : k ∈ List.map Prod.fst rest
      · simp [hmem, hne]
      · simp [hmem, hne]

theorem nodupKeys_insert {κ α : Type} [DecidableEq κ] (k : κ) (v : α)
    {m : List (κ × α)} (h : nodupKeys m) : nodupKeys (mapInsert k v m) := by
  unfold nodupKeys at h ⊢
  rw [mapKeys_insert]
  by_cases hk : k ∈ mapKeys m
  · simpa [hk] using h
  · rw [if_neg hk]
    refine List.Nodup.append h (List.nodup_singleton k) ?_
    intro a ha hb
    rw [List.mem_singleton] at hb
    subst hb
    exact hk ha

theorem dirLeads_cons_iff (a b : String) (as bs : List String) :
    dirLeads (a :: as) (b :: bs) = true ↔ (a = b ∧ dirLeads as bs = true) := by
  simp [dirLeads, Bool.and_eq_true, beq_iff_eq]

/-! Concrete fixtures used by witnesses and counterexamples. -/

/-- A concrete environment with a `worker_info_dir` value distinct from
the literal `"worker-info"`. -/
def envW : EnvironmentVariables :=
  { workerd_dir := "wd", worker_info_dir := "wi", workerd_bin_path := "bin" }

/-- A concrete worker matching the spec's round-trip scenario. -/
def worker0 : Worker :=
  { id := "abcdef", host_name := "localhost", port := "9000", entry := "main.js",
    code := "code0", template := none }

/-- The empty initial application state. -/
def state0 : AppState :=
  { env := envW, template_cache := [], chan_map := [], child_map := [],
    next_signal := 0, compiles := 0, fired := [], killed := [] }

/-- The state after a successful `run_cmd` reservation for `worker0`. -/
def state1 : AppState := { state0 with chan_map := [("abcdef", 0)], next_signal := 1 }

/-- The launch task produced by that reservation. -/
def task0 : LaunchTask :=
  { worker_id := "abcdef", capfile_arg := ["wd", "worker-info", "abcdef", "Capfile"],
    signal := 0 }

/-- C1. Single-flight start: when the cancellation-signal map already has
an entry for the worker's identity, `run_cmd` fails with
`WorkerStillRunning` and leaves both maps (indeed the whole state)
unchanged; otherwise, in the same atomic step as the check and before the
launch task (which is returned unexecuted, so no spawn has been
attempted) runs, it registers the fresh signal `next_signal` for that
identity; and the insertion preserves the at-most-one-entry-per-identity
invariant of the signal map. -/
theorem runCmd_single_flight (s : AppState) (w : Worker) :
    (mapContains w.id s.chan_map = true →
      runCmd s w = (Outcome.err ServerError.WorkerStillRunning, s, none)) ∧
    (mapContains w.id s.chan_map = false →
      (runCmd s w).1 = Outcome.ok () ∧
      (runCmd s w).2.1.chan_map = mapInsert w.id s.next_signal s.chan_map ∧
      (runCmd s w).2.1.child_map = s.child_map ∧
      (runCmd s w).2.2 = some { worker_id := w.id, capfile_arg := capfile_path s.env w.id,
                                signal := s.next_signal }) ∧
    (nodupKeys s.chan_map → nodupKeys ((runCmd s w).2.1.chan_map)) := by
  refine ⟨fun h => by simp [runCmd, h], fun h => by simp [runCmd, h], fun h => ?_⟩
  by_cases hc : mapContains w.id s.chan_map
  · simpa [runCmd, hc] using h
  · simp only [Bool.not_eq_true] at hc
    simpa [runCmd, hc] using nodupKeys_insert w.id s.next_signal h

/-- Witness for C1 at concrete inputs: a second start for `worker0` fails
with `WorkerStillRunning` without touching the state, and a first start
from the empty state inserts the reservation and keeps the keys
duplicate-free. -/
theorem runCmd_single_flight_witness :
    runCmd state1 worker0 = (Outcome.err ServerError.WorkerStillRunning, state1, none) ∧
    (runCmd state0 worker0).2.1.chan_map =
      mapInsert worker0.id state0.next_signal state0.chan_map ∧
    nodupKeys ((runCmd state0 worker0).2.1.chan_map) := by
  have h1 := (runCmd_single_flight state1 worker0).1 (by decide)
  have h2 := ((runCmd_single_flight state0 worker0).2.1 (by decide)).2.1
  have h3 := (runCmd_single_flight state0 worker0).2.2 (by simp [state0, nodupKeys, mapKeys])
  exact ⟨h1, h2, h3⟩

/-- C2. The claim says a spawn failure removes the reservation and
surfaces `FailedToStartWorker` to the caller. The code instead answers
the caller with success before the spawn is attempted, and on spawn
failure the detached launch task hits
`map_err(.. FailedStartWorker).unwrap()`, which panics the task: the
`FailedStartWorker` value never reaches anyone and the `chan_map`
reservation survives, so a subsequent start for the same identity fails
with `WorkerStillRunning` instead of succeeding. This theorem evaluates
the model at such a failing input. -/
theorem runCmd_spawn_failure_divergence :
    runCmd state0 worker0 = (Outcome.ok (), state1, some task0) ∧
    launch_task_spawn task0 SpawnOutcome.err state1 =
      (SpawnPhase.panickedSpawn ServerError.FailedStartWorker, state1) ∧
    mapContains worker0.id state1.chan_map = true ∧
    runCmd state1 worker0 = (Outcome.err ServerError.WorkerStillRunning, state1, none) := by
  refine ⟨?_, rfl, by decide, ?_⟩ <;> simp [runCmd, state0, state1, worker0, task0,
    mapContains, mapLookup, mapInsert, capfile_path, envW]

/-- C5. Stop semantics: `exit_cmd` on an identity with no registered
signal fails with `WorkerNotRunning` and changes nothing (in particular
it spawns and kills nothing: the whole state, including `child_map` and
the ghost `killed` log, is returned untouched); when a signal is
registered it removes exactly that entry, fires it, and returns success
immediately, leaving `child_map` to the launch task. -/
theorem exitCmd_stop_semantics (s : AppState) (w : Worker) :
    (mapLookup w.id s.chan_map = none →
      exit_cmd s w = (Outcome.err ServerError.WorkerNotRunning, s)) ∧
    (∀ tx, mapLookup w.id s.chan_map = some tx →
      exit_cmd s w =
        (Outcome.ok (),
          { s with chan_map := mapRemove w.id s.chan_map, fired := tx :: s.fired })) := by
  exact ⟨fun h => by simp [exit_cmd, h], fun tx h => by simp [exit_cmd, h]⟩

/-- Witness for C5 at concrete inputs: stopping a never-started worker
fails with `WorkerNotRunning` and leaves the state alone; stopping the
running `worker0` removes its signal entry, fires signal `0`, and leaves
`child_map` untouched. -/
theorem exitCmd_stop_semantics_witness :
    exit_cmd state0 worker0 = (Outcome.err ServerError.WorkerNotRunning, state0) ∧
    exit_cmd state1 worker0 =
      (Outcome.ok (),
        { state1 with chan_map := mapRemove worker0.id state1.chan_map, fired := [0] }) := by
  have h1 := (exitCmd_stop_semantics state0 worker0).1 (by decide)
  have h2 := (exitCmd_stop_semantics state1 worker0).2 0 (by decide)
  exact ⟨h1, h2⟩

/-- C9. Optimistic start acknowledgment: whenever the identity is not yet
reserved, `run_cmd` answers the caller `Ok` in the same step in which it
registers the reservation and schedules the launch task; the
acknowledgment is a function of the pre-spawn state only, and in
particular is the same no matter which `SpawnOutcome` the detached task
later encounters (the outcome is not an input of `runCmd` at all). -/
theorem runCmd_optimistic_ack (s : AppState) (w : Worker)
    (h : mapContains w.id s.chan_map = false) :
    (runCmd s w).1 = Outcome.ok () ∧
    (runCmd s w).2.2 = some { worker_id := w.id, capfile_arg := capfile_path s.env w.id,
                              signal := s.next_signal } ∧
    (∀ o : SpawnOutcome, ∀ s₂ : AppState,
      (launch_task_spawn { worker_id := w.id, capfile_arg := capfile_path s.env w.id,
                           signal := s.next_signal } o s₂).1 = SpawnPhase.panickedSpawn
                             ServerError.FailedStartWorker ∨
      (∃ c, (launch_task_spawn { worker_id := w.id, capfile_arg := capfile_path s.env w.id,
                                 signal := s.next_signal } o s₂).1 = SpawnPhase.waiting c)) := by
  refine ⟨by simp [runCmd, h], by simp [runCmd, h], fun o s₂ => ?_⟩
  cases o with
  | err => exact Or.inl rfl
  | ok c => exact Or.inr ⟨c, rfl⟩

/-- Witness for C9 at a concrete input: the first start of `worker0` from
the empty state is acknowledged `Ok` with the launch task scheduled. -/
theorem runCmd_optimistic_ack_witness :
    (runCmd state0 worker0).1 = Outcome.ok () ∧
    (runCmd state0 worker0).2.2 = some task0 := by
  have h := runCmd_optimistic_ack state0 worker0 (by decide)
  exact ⟨h.1, h.2.1⟩

/-! Shape lemmas for `generate_worker_config`, one per path through its
two matches. -/

theorem generate_hit_ok (s : AppState) (w : Worker) (segs : List Segment) (out : List Char)
    (hc : mapLookup (get_template_hash (chosenTemplate w)) s.template_cache = some segs)
    (hr : renderSegs { w with id := stripHyphens w.id } segs = some out) :
    generate_worker_config s w = (Outcome.ok (String.mk out), s) := by
  simp [generate_worker_config, hc, hr]

theorem generate_hit_panic (s : AppState) (w : Worker) (segs : List Segment)
    (hc : mapLookup (get_template_hash (chosenTemplate w)) s.template_cache = some segs)
    (hr : renderSegs { w with id := stripHyphens w.id } segs = none) :
    generate_worker_config s w = (Outcome.panicked, s) := by
  simp [generate_worker_config, hc, hr]

theorem generate_miss_parse_none (s : AppState) (w : Worker)
    (hc : mapLookup (get_template_hash (chosenTemplate w)) s.template_cache = none)
    (hp : parseSegs (chosenTemplate w).data = none) :
    generate_worker_config s w = (Outcome.panicked, s) := by
  simp [generate_worker_config, hc, hp]

theorem generate_miss_ok (s : AppState) (w : Worker) (segs : List Segment) (out : List Char)
    (hc : mapLookup (get_template_hash (chosenTemplate w)) s.template_cache = none)
    (hp : parseSegs (chosenTemplate w).data = some segs)
    (hr : renderSegs { w with id := stripHyphens w.id } segs = some out) :
    generate_worker_config s w =
      (Outcome.ok (String.mk out),
        { s with template_cache := mapInsert (get_template_hash (chosenTemplate w)) segs
                   s.template_cache,
                 compiles := s.compiles + 1 }) := by
  simp [generate_worker_config, hc, hp, hr]

theorem generate_miss_panic (s : AppState) (w : Worker) (segs : List Segment)
    (hc : mapLookup (get_template_hash (chosenTemplate w)) s.template_cache = none)
    (hp : parseSegs (chosenTemplate w).data = some segs)
    (hr : renderSegs { w with id := stripHyphens w.id } segs = none) :
    generate_worker_config s w =
      (Outcome.panicked,
        { s with template_cache := mapInsert (get_template_hash (chosenTemplate w)) segs
                   s.template_cache,
                 compiles := s.compiles + 1 }) := by
  simp [generate_worker_config, hc, hp, hr]

/-- A worker whose template override is syntactically malformed (an
unterminated variable opener). -/
def workerBadTmpl : Worker := { worker0 with template := some "\x7b\x7bid" }

/-- A worker whose template override references a substitution field that
the `Worker` struct does not have. -/
def workerBadField : Worker := { worker0 with template := some "\x7b\x7bmissing\x7d\x7d" }

/-- C4 counterexample. The claim says a malformed template makes render
fail with a `TemplateCompileError` and a missing substitution field with
a `TemplateRenderError`, both returned as errors to the caller rather
than aborting. On the code, both `register_template_string(..).unwrap()`
and `render(..).unwrap()` panic: at these concrete inputs
`generate_worker_config` aborts (`panicked`, a constructor disjoint from
every `err e`), and no `TemplateCompileError`/`TemplateRenderError`
variant exists in `ServerError` at all. -/
theorem template_errors_counterexample :
    (generate_worker_config state0 workerBadTmpl).1 = Outcome.panicked ∧
    (generate_worker_config state0 workerBadField).1 = Outcome.panicked := by
  constructor <;> rfl

/-- C4 amended. On a cold cache, a syntactically malformed template makes
`generate_worker_config` panic via the `unwrap` on
`register_template_string` (leaving the state unchanged), and a template
referencing a substitution field missing from the worker makes it panic
via the `unwrap` on `render`; neither failure is returned to the caller
as an error value. -/
theorem template_failures_abort (s : AppState) (w : Worker)
    (hcold : mapLookup (get_template_hash (chosenTemplate w)) s.template_cache = none) :
    (parseSegs (chosenTemplate w).data = none →
      generate_worker_config s w = (Outcome.panicked, s)) ∧
    (∀ segs, parseSegs (chosenTemplate w).data = some segs →
      renderSegs { w with id := stripHyphens w.id } segs = none →
      (generate_worker_config s w).1 = Outcome.panicked) := by
  refine ⟨fun hp => generate_miss_parse_none s w hcold hp, fun segs hp hr => ?_⟩
  rw [generate_miss_panic s w segs hcold hp hr]

/-- Witness for the amended C4 at concrete inputs: the malformed template
of `workerBadTmpl` and the missing-field template of `workerBadField`
both make the render abort. -/
theorem template_failures_abort_witness :
    generate_worker_config state0 workerBadTmpl = (Outcome.panicked, state0) ∧
    (generate_worker_config state0 workerBadField).1 = Outcome.panicked := by
  have h1 := (template_failures_abort state0 workerBadTmpl rfl).1 (by rfl)
  have h2 := (template_failures_abort state0 workerBadField rfl).2
    [Segment.var "missing".data] (by rfl) (by rfl)
  exact ⟨h1, h2⟩

/-- A second worker sharing `worker0`'s template text. -/
def workerB : Worker := { worker0 with id := "zzz" }

/-- C7. Template-cache behavior: compiled templates are cached under the
SHA-256 digest of the raw template text; starting from a cache without
that key, rendering two workers with byte-identical template text
performs exactly one compilation (the `compiles` ghost counter rises by
one on the first render and stays put on the second, which hits the entry
stored under the digest); existing cache entries survive every render;
and none of the supervisor operations touches the cache. -/
theorem template_cache_single_compile (s : AppState) (w1 w2 : Worker)
    (htmpl : chosenTemplate w2 = chosenTemplate w1)
    (hcold : mapLookup (get_template_hash (chosenTemplate w1)) s.template_cache = none)
    (segs : List Segment) (hp : parseSegs (chosenTemplate w1).data = some segs) :
    ((generate_worker_config s w1).2.compiles = s.compiles + 1) ∧
    ((generate_worker_config s w1).2.template_cache =
      mapInsert (get_template_hash (chosenTemplate w1)) segs s.template_cache) ∧
    ((generate_worker_config (generate_worker_config s w1).2 w2).2.template_cache =
      (generate_worker_config s w1).2.template_cache) ∧
    ((generate_worker_config (generate_worker_config s w1).2 w2).2.compiles =
      (generate_worker_config s w1).2.compiles) ∧
    (∀ k v, mapLookup k s.template_cache = some v →
      mapLookup k (generate_worker_config (generate_worker_config s w1).2 w2).2.template_cache
        = some v) ∧
    (∀ s₃ w₃, (runCmd s₃ w₃).2.1.template_cache = s₃.template_cache) ∧
    (∀ s₃ w₃, (exit_cmd s₃ w₃).2.template_cache = s₃.template_cache) ∧
    (∀ s₃, (exit_all_cmd s₃).2.template_cache = s₃.template_cache) := by
  have h1 : (generate_worker_config s w1).2 =
      { s with template_cache := mapInsert (get_template_hash (chosenTemplate w1)) segs
                 s.template_cache,
               compiles := s.compiles + 1 } := by
    rcases hr1 : renderSegs { w1 with id := stripHyphens w1.id } segs with _ | out1
    · rw [generate_miss_panic s w1 segs hcold hp hr1]
    · rw [generate_miss_ok s w1 segs out1 hcold hp hr1]
  have hlook2 : mapLookup (get_template_hash (chosenTemplate w2))
      (generate_worker_config s w1).2.template_cache = some segs := by
    rw [h1, htmpl]
    exact mapLookup_insert_self _ _ _
  have h2 : (generate_worker_config (generate_worker_config s w1).2 w2).2 =
      (generate_worker_config s w1).2 := by
    rcases hr2 : renderSegs { w2 with id := stripHyphens w2.id } segs with _ | out2
    · rw [generate_hit_panic _ w2 segs hlook2 hr2]
    · rw [generate_hit_ok _ w2 segs out2 hlook2 hr2]
  refine ⟨by rw [h1], by rw [h1], by rw [h2], by rw [h2], fun k v hkv => ?_,
    fun s₃ w₃ => ?_, fun s₃ w₃ => ?_, fun s₃ => rfl⟩
  · rw [h2, h1]
    by_cases hk : k = get_template_hash (chosenTemplate w1)
    · rw [hk, hcold] at hkv
      exact absurd hkv (by simp)
    · show mapLookup k (mapInsert (get_template_hash (chosenTemplate w1)) segs
        s.template_cache) = some v
      rw [mapLookup_insert_ne _ _ hk]
      exact hkv
  · by_cases h : mapContains w₃.id s₃.chan_map <;> simp [runCmd, h]
  · rcases h : mapLookup w₃.id s₃.chan_map with _ | tx <;> simp [exit_cmd, h]

/-- Witness for C7 at concrete inputs: rendering `worker0` and then
`workerB` (identical template text) from the empty cache compiles exactly
once. -/
theorem template_cache_single_compile_witness :
    ((generate_worker_config state0 worker0).2.compiles = state0.compiles + 1) ∧
    ((generate_worker_config (generate_worker_config state0 worker0).2 workerB).2.compiles =
      (generate_worker_config state0 worker0).2.compiles) := by
  have hp : parseSegs (chosenTemplate worker0).data =
      some ((parseSegs (chosenTemplate worker0).data).getD []) := by rfl
  have h := template_cache_single_compile state0 worker0 workerB rfl rfl _ hp
  exact ⟨h.1, h.2.2.2.1⟩

/-- C8. Rendering round-trip and determinism: re-rendering the same
worker immediately after a first render (whatever the first render did to
the cache) yields a byte-identical outcome; and for `worker0` (host
`localhost`, port `9000`, entry `main.js`, absent template override) the
rendered configuration contains the substrings
`address = "localhost:9000"` and `embed "src/main.js"`. -/
theorem render_deterministic_roundtrip :
    (∀ s w, (generate_worker_config s w).1 =
      (generate_worker_config (generate_worker_config s w).2 w).1) ∧
    outcomeContains (generate_worker_config state0 worker0).1
      "address = \"localhost:9000\"" = true ∧
    outcomeContains (generate_worker_config state0 worker0).1
      "embed \"src/main.js\"" = true := by
  refine ⟨fun s w => ?_, by rfl, by rfl⟩
  rcases hc : mapLookup (get_template_hash (chosenTemplate w)) s.template_cache with _ | segs
  · rcases hp : parseSegs (chosenTemplate w).data with _ | segs
    · simp [generate_miss_parse_none s w hc hp]
    · rcases hr : renderSegs { w with id := stripHyphens w.id } segs with _ | out
      · have h1 := generate_miss_panic s w segs hc hp hr
        have h2 := generate_hit_panic (generate_worker_config s w).2 w segs
          (by rw [h1]; exact mapLookup_insert_self _ _ _) hr
        rw [h1] at h2
        simp [h1, h2]
      · have h1 := generate_miss_ok s w segs out hc hp hr
        have h2 := generate_hit_ok (generate_worker_config s w).2 w segs out
          (by rw [h1]; exact mapLookup_insert_self _ _ _) hr
        rw [h1] at h2
        simp [h1, h2]
  · rcases hr : renderSegs { w with id := stripHyphens w.id } segs with _ | out
    · simp [generate_hit_panic s w segs hc hr]
    · simp [generate_hit_ok s w segs out hc hr]

/-! Claims about the access gate's id sanitization and the filesystem
operations. -/

/-- A stored worker row matching `worker0`. -/
def dbRow0 : DbWorker :=
  { host_name := "localhost", port := "9000", entry := "main.js", code := "code0",
    template := none, user_id := "u1" }

/-- A database holding that row under the hyphenated id `"ab-cd-ef"`. -/
def db0 : List (String × DbWorker) := [("ab-cd-ef", dbRow0)]

/-- Claims of the row's owner, without the admin role. -/
def claims0 : AccessTokenClaims := { sub := "u1", isAdmin := false }

/-- C3 counterexample. The claim says the filesystem paths use the
original, unsanitized identity. But `get_worker_with_id` strips the
hyphens before returning, and every handler builds its paths from the
returned `worker.id`: resolving `"ab-cd-ef"` yields a worker whose id is
`"abcdef"`, and the configuration path built for it differs from the one
the original identity would give. -/
theorem sanitization_scope_counterexample :
    get_worker_with_id db0 claims0 "ab-cd-ef" = Except.ok worker0 ∧
    capfile_path envW worker0.id = ["wd", "worker-info", "abcdef", "Capfile"] ∧
    capfile_path envW worker0.id ≠ ["wd", "worker-info", "ab-cd-ef", "Capfile"] := by
  exact ⟨rfl, rfl, by decide⟩

/-- C3 amended. The hyphen-stripped identity is used for the generated
identifiers in the rendered configuration and also for every filesystem
path (config, source, delete), because `get_worker_with_id` already
returns the stripped id; only the database lookup receives the original,
unsanitized identity (the gate's result depends on the store only through
the original id's row). -/
theorem sanitization_scope_amended (db : List (String × DbWorker))
    (claims : AccessTokenClaims) (id : String) (w : Worker)
    (h : get_worker_with_id db claims id = Except.ok w) :
    w.id = stripHyphens id ∧
    (∀ db₂, mapLookup id db₂ = mapLookup id db →
      get_worker_with_id db₂ claims id = get_worker_with_id db claims id) ∧
    (∀ env, capfile_path env w.id =
      [env.workerd_dir, "worker-info", stripHyphens id, "Capfile"]) ∧
    (∀ env entry, worker_code_path env w.id entry =
      [env.workerd_dir, env.worker_info_dir, stripHyphens id, "src", entry]) ∧
    (∀ env, delete_path env w.id =
      [env.workerd_dir, env.worker_info_dir, stripHyphens id]) := by
  have hid : w.id = stripHyphens id := by
    unfold get_worker_with_id at h
    split at h
    · exact absurd h (by simp)
    · split at h
      · exact absurd h (by simp)
      · have hw := Except.ok.inj h
        rw [← hw]
  refine ⟨hid, fun db₂ hdb₂ => ?_, fun env => by rw [hid]; rfl,
    fun env entry => by rw [hid]; rfl, fun env => by rw [hid]; rfl⟩
  unfold get_worker_with_id
  rw [hdb₂]

/-- Witness for the amended C3 at concrete inputs: resolving the
hyphenated id `"ab-cd-ef"` yields the stripped id `"abcdef"`, and the
configuration path is built from the stripped id. -/
theorem sanitization_scope_amended_witness :
    worker0.id = stripHyphens "ab-cd-ef" ∧
    capfile_path envW worker0.id = ["wd", "worker-info", stripHyphens "ab-cd-ef", "Capfile"] := by
  have h := sanitization_scope_amended db0 claims0 "ab-cd-ef" worker0 rfl
  exact ⟨h.1, h.2.2.1 envW⟩

/-- A filesystem holding `worker0`'s Capfile (under the literal
`worker-info` directory) and its source file (under the configured
`worker_info_dir`, here `"wi"`). -/
def fs0 : Fs :=
  [(["wd", "worker-info", "abcdef", "Capfile"], "cfg"),
   (["wd", "wi", "abcdef", "src", "main.js"], "code0")]

/-- Shape of `delete_file` without a permission failure: success with the
subtree filtered out when something exists under the delete path, and an
`InternalServerError` otherwise. -/
theorem delete_file_false_cases (s : AppState) (w : Worker) (fs : Fs) :
    delete_file s w false fs =
      (if fs.any (fun e => dirLeads (delete_path s.env w.id) e.1) then
        (Outcome.ok (), fs.filter (fun e => !dirLeads (delete_path s.env w.id) e.1))
      else (Outcome.err ServerError.InternalServerError, fs)) := by
  by_cases h : fs.any (fun e => dirLeads (delete_path s.env w.id) e.1) = true
  · simp [delete_file, remove_dir_all, h]
  · simp only [Bool.not_eq_true] at h
    simp [delete_file, remove_dir_all, h]

/-- C6 counterexample. The claim says a missing subtree fails with a
distinct `ArtifactNotFound` and permission/device failures with
`IOError`, the two being distinguishable. The code maps every
`remove_dir_all` error through one `map_err` to `InternalServerError`
(and `ServerError` has no `ArtifactNotFound`/`IOError` variant at all):
at these concrete inputs the missing-subtree failure and the
permission failure produce the very same error. -/
theorem deleteAll_indistinguishable_counterexample :
    delete_file state0 worker0 false ([] : Fs) =
      (Outcome.err ServerError.InternalServerError, ([] : Fs)) ∧
    delete_file state0 worker0 true fs0 =
      (Outcome.err ServerError.InternalServerError, fs0) ∧
    (delete_file state0 worker0 false ([] : Fs)).1 =
      (delete_file state0 worker0 true fs0).1 := by
  exact ⟨rfl, rfl, rfl⟩

/-- C6 amended. `delete_file` removes the worker's entire artifact
subtree recursively (everything under `delete_path`); it fails when the
subtree does not exist and it fails on a permission/device failure, but
both failure classes surface as the same `InternalServerError`, so the
caller cannot distinguish them. -/
theorem deleteAll_semantics (s : AppState) (w : Worker) (fs : Fs) :
    (fs.any (fun e => dirLeads (delete_path s.env w.id) e.1) = true →
      delete_file s w false fs =
        (Outcome.ok (), fs.filter (fun e => !dirLeads (delete_path s.env w.id) e.1))) ∧
    (fs.any (fun e => dirLeads (delete_path s.env w.id) e.1) = false →
      delete_file s w false fs = (Outcome.err ServerError.InternalServerError, fs)) ∧
    delete_file s w true fs = (Outcome.err ServerError.InternalServerError, fs) := by
  refine ⟨fun h => ?_, fun h => ?_, by simp [delete_file, remove_dir_all]⟩
  · rw [delete_file_false_cases, if_pos h]
  · rw [delete_file_false_cases, if_neg (by simp [h])]

/-- Witness for the amended C6 at concrete inputs: deleting `worker0`'s
artifacts from `fs0` succeeds and removes exactly the subtree under the
configured `wi` directory. -/
theorem deleteAll_semantics_witness :
    delete_file state0 worker0 false fs0 =
      (Outcome.ok (), [(["wd", "worker-info", "abcdef", "Capfile"], "cfg")]) := by
  have h := (deleteAll_semantics state0 worker0 fs0).1 (by rfl)
  exact h

/-- Keys led by the Capfile's directory cannot be led by the delete
directory when `worker_info_dir` differs from `"worker-info"`. -/
theorem dirLeads_disjoint (wd wid id : String) (hne : wid ≠ "worker-info")
    (p : List String) (h : dirLeads [wd, "worker-info", id] p = true) :
    dirLeads [wd, wid, id] p = false := by
  match p with
  | [] => exact absurd h (by simp [dirLeads])
  | [a] =>
    rw [dirLeads_cons_iff] at h
    exact absurd h.2 (by simp [dirLeads])
  | a :: b :: p2 =>
    rw [dirLeads_cons_iff, dirLeads_cons_iff] at h
    obtain ⟨h1, h2, h3⟩ := h
    subst h1
    rw [← h2]
    have hb : (wid == "worker-info") = false := by
      simp [hne]
    simp [dirLeads, hb]

/-- C10. Deletion misses the configuration artifact: `delete_file`
removes the subtree under `<workerd_dir>/<worker_info_dir>/<id>`, while
the Capfile lives under the literal `<workerd_dir>/worker-info/<id>`; so
whenever the configured `worker_info_dir` differs from the string
`"worker-info"`, a successful deletion leaves every file under the
Capfile's directory — in particular the Capfile itself — exactly as it
was. -/
theorem delete_misses_capfile (s : AppState) (w : Worker) (fs fs' : Fs)
    (hne : s.env.worker_info_dir ≠ "worker-info")
    (hdel : delete_file s w false fs = (Outcome.ok (), fs')) :
    (∀ pr : List String × String,
      dirLeads [s.env.workerd_dir, "worker-info", w.id] pr.1 = true →
      (pr ∈ fs ↔ pr ∈ fs')) ∧
    (∀ text : String,
      (capfile_path s.env w.id, text) ∈ fs → (capfile_path s.env w.id, text) ∈ fs') := by
  rw [delete_file_false_cases] at hdel
  by_cases hany : fs.any (fun e => dirLeads (delete_path s.env w.id) e.1) = true
  · rw [if_pos hany] at hdel
    have hfs' : fs' = fs.filter (fun e => !dirLeads (delete_path s.env w.id) e.1) := by
      have := congrArg Prod.snd hdel
      simpa using this.symm
    have main : ∀ pr : List String × String,
        dirLeads [s.env.workerd_dir, "worker-info", w.id] pr.1 = true →
        (pr ∈ fs ↔ pr ∈ fs') := by
      intro pr hpr
      have hnot : dirLeads (delete_path s.env w.id) pr.1 = false :=
        dirLeads_disjoint s.env.workerd_dir s.env.worker_info_dir w.id hne pr.1 hpr
      rw [hfs']
      constructor
      · intro hin
        exact List.mem_filter.mpr ⟨hin, by simp [hnot]⟩
      · intro hin
        exact (List.mem_filter.mp hin).1
    refine ⟨main, fun text hin => ?_⟩
    have hcap : dirLeads [s.env.workerd_dir, "worker-info", w.id]
        (capfile_path s.env w.id) = true := by
      simp [dirLeads, capfile_path]
    exact (main (capfile_path s.env w.id, text) hcap).mp hin
  · rw [if_neg hany] at hdel
    exact absurd (congrArg Prod.fst hdel) (by simp)

/-- Witness for C10 at concrete inputs: with `worker_info_dir = "wi"`,
deleting `worker0`'s artifacts from `fs0` succeeds yet the Capfile entry
survives. -/
theorem delete_misses_capfile_witness :
    (capfile_path state0.env worker0.id, "cfg") ∈
      ([(["wd", "worker-info", "abcdef", "Capfile"], "cfg")] : Fs) := by
  have h := delete_misses_capfile state0 worker0 fs0
    ([(["wd", "worker-info", "abcdef", "Capfile"], "cfg")]) (by decide) (by rfl)
  exact h.2 "cfg" (by decide)

end WorkerdManager
